import Mathlib

/-!
Verification of the natural-language query engine `DataInsightAI`
(`src/utils/ai_insights.py`) of the enterprise-analytics-dashboard repository.

The engine is shallowly embedded:
* question text is modelled as `String` (a wrapper over `List Char` in this
  Lean version); Python `str.lower` / `str.strip` / substring tests are
  embedded as `lowerStr` / `trimStr` / `strContains` (faithful for the ASCII
  text the engine matches on);
* the in-memory pandas snapshot is `Snapshot`: ordered column names, the
  numeric-column subset, a row count, and per-column cell lists where a cell
  is `Option ℚ` (`none` is a missing value; for non-numeric columns only
  presence or absence of a cell is ever observed by the engine);
* float arithmetic is embedded by exact rationals extended with the IEEE
  special values (`FVal`), because the pandas/numpy scalar operations used by
  the engine produce `inf` and `nan` on division by zero instead of raising;
* Python float formatting (`:.2f`, `:,.2f`, `:+.1f`) is embedded by exact
  decimal rounding of the rational value (ties rounded up; tie cases are not
  exercised by any statement below), and the square root appearing in the
  standard-deviation display is rendered by `sqrtRound`, the correctly
  rounded decimal square root.
-/

/-! ### String utilities -/

/-- Substring containment: `needle` occurs contiguously inside `hay`.
Embeds the Python expression `needle in hay`. -/
def strContains (hay needle : String) : Prop :=
  needle.data <:+: hay.data

instance (hay needle : String) : Decidable (strContains hay needle) :=
  List.decidableInfix needle.data hay.data

/-- Embeds Python `str.lower` (faithful on ASCII, which is all the engine
compares against). -/
def lowerStr (s : String) : String :=
  ⟨s.data.map Char.toLower⟩

/-- Leading and trailing whitespace removal on character lists. -/
def trimChars (l : List Char) : List Char :=
  ((l.dropWhile Char.isWhitespace).reverse.dropWhile Char.isWhitespace).reverse

/-- Embeds Python `str.strip`. -/
def trimStr (s : String) : String :=
  ⟨trimChars s.data⟩

/-- Whitespace tokenizer accumulator: embeds Python `str.split()` (split on
whitespace runs, no empty tokens). -/
def splitWSAux : List Char → List Char → List (List Char)
  | [], acc => if acc.isEmpty then [] else [acc.reverse]
  | c :: cs, acc =>
    if c.isWhitespace then
      if acc.isEmpty then splitWSAux cs [] else acc.reverse :: splitWSAux cs []
    else splitWSAux cs (c :: acc)

/-- Embeds Python `str.split()`. -/
def splitWS (l : List Char) : List (List Char) :=
  splitWSAux l []

/-- Title-casing accumulator: the flag records whether the previous character
was alphabetic. -/
def titleAux : Bool → List Char → List Char
  | _, [] => []
  | prev, c :: cs =>
    (if c.isAlpha then (if prev then c.toLower else c.toUpper) else c) ::
      titleAux c.isAlpha cs

/-- Embeds the display-name expression `col.replace('_', ' ').title()` used by
every answer template. -/
def titleStr (s : String) : String :=
  ⟨titleAux false (s.data.map (fun c => if c = '_' then ' ' else c))⟩

/-- Embeds `s.replace('_', ' ')` (used by the multi-column detector). -/
def underscoreToSpace (s : String) : String :=
  ⟨s.data.map (fun c => if c = '_' then ' ' else c)⟩

/-- Python `any(word in q for word in words)`. -/
def containsAny (q : String) (ws : List String) : Prop :=
  ∃ w ∈ ws, strContains q w

instance (q : String) (ws : List String) : Decidable (containsAny q ws) :=
  List.decidableBEx _ ws

/-! ### Float values: rationals extended with the IEEE special values -/

/-- Embedding of the numpy float scalars the engine computes with: an exact
rational, or one of the non-finite values produced by division by zero. -/
inductive FVal where
  | fin : ℚ → FVal
  | inf : FVal
  | ninf : FVal
  | nan : FVal
deriving DecidableEq, Repr

/-- IEEE addition on embedded floats. -/
def fadd : FVal → FVal → FVal
  | .fin a, .fin b => .fin (a + b)
  | .nan, _ => .nan
  | _, .nan => .nan
  | .inf, .ninf => .nan
  | .ninf, .inf => .nan
  | .inf, _ => .inf
  | _, .inf => .inf
  | .ninf, _ => .ninf
  | _, .ninf => .ninf

/-- IEEE subtraction on embedded floats. -/
def fsub : FVal → FVal → FVal
  | .fin a, .fin b => .fin (a - b)
  | .nan, _ => .nan
  | _, .nan => .nan
  | .inf, .inf => .nan
  | .ninf, .ninf => .nan
  | .inf, _ => .inf
  | _, .inf => .ninf
  | .ninf, _ => .ninf
  | _, .ninf => .inf

/-- IEEE multiplication on embedded floats. -/
def fmul : FVal → FVal → FVal
  | .fin a, .fin b => .fin (a * b)
  | .nan, _ => .nan
  | _, .nan => .nan
  | .inf, .inf => .inf
  | .inf, .ninf => .ninf
  | .ninf, .inf => .ninf
  | .ninf, .ninf => .inf
  | .inf, .fin b => if 0 < b then .inf else if b < 0 then .ninf else .nan
  | .fin a, .inf => if 0 < a then .inf else if a < 0 then .ninf else .nan
  | .ninf, .fin b => if 0 < b then .ninf else if b < 0 then .inf else .nan
  | .fin a, .ninf => if 0 < a then .ninf else if a < 0 then .inf else .nan

/-- IEEE division on embedded floats.  Division of a nonzero finite value by
(positive) zero yields a signed infinity, and `0 / 0` yields `nan` — this is
what the numpy scalars used by the engine do (with a runtime warning), rather
than raising `ZeroDivisionError`. -/
def fdiv : FVal → FVal → FVal
  | .fin a, .fin b =>
    if b = 0 then (if 0 < a then .inf else if a < 0 then .ninf else .nan)
    else .fin (a / b)
  | .nan, _ => .nan
  | _, .nan => .nan
  | .inf, .inf => .nan
  | .inf, .ninf => .nan
  | .ninf, .inf => .nan
  | .ninf, .ninf => .nan
  | .inf, .fin b => if b < 0 then .ninf else .inf
  | .ninf, .fin b => if b < 0 then .inf else .ninf
  | .fin _, .inf => .fin 0
  | .fin _, .ninf => .fin 0

/-- Python `x > 0` on an embedded float (`nan > 0` is false). -/
def fgt0 : FVal → Bool
  | .fin q => decide (0 < q)
  | .inf => true
  | _ => false

/-- Python `x < 0` on an embedded float (`nan < 0` is false). -/
def flt0 : FVal → Bool
  | .fin q => decide (q < 0)
  | .ninf => true
  | _ => false

/-! ### Column aggregates (pandas Series operations, skipping missing cells) -/

/-- The non-missing values of a column (pandas `dropna`). -/
def somes (l : List (Option ℚ)) : List ℚ :=
  l.filterMap id

/-- pandas `Series.sum()` (skips missing cells); the sum of an empty or
all-missing column is `0`. -/
def osum (l : List (Option ℚ)) : ℚ :=
  (somes l).sum

/-- pandas `Series.count()`: the number of non-missing cells. -/
def ocount (l : List (Option ℚ)) : ℕ :=
  (somes l).length

/-- pandas `Series.mean()`: `nan` when every cell is missing. -/
def omean (l : List (Option ℚ)) : FVal :=
  if ocount l = 0 then .nan else .fin (osum l / ocount l)

/-- pandas `Series.max()`: `nan` when every cell is missing. -/
def omax (l : List (Option ℚ)) : FVal :=
  match somes l with
  | [] => .nan
  | x :: xs => .fin (xs.foldl max x)

/-- pandas `Series.min()`: `nan` when every cell is missing. -/
def omin (l : List (Option ℚ)) : FVal :=
  match somes l with
  | [] => .nan
  | x :: xs => .fin (xs.foldl min x)

/-- Insertion into a sorted rational list. -/
def insertQ (x : ℚ) : List ℚ → List ℚ
  | [] => [x]
  | y :: ys => if x ≤ y then x :: y :: ys else y :: insertQ x ys

/-- Insertion sort on rationals. -/
def sortQ (l : List ℚ) : List ℚ :=
  l.foldr insertQ []

/-- pandas `Series.median()`: middle of the sorted non-missing values, the
mean of the two middles for an even count, `nan` for an empty column. -/
def omedian (l : List (Option ℚ)) : FVal :=
  let v := sortQ (somes l)
  let n := v.length
  if n = 0 then .nan
  else if n % 2 = 1 then .fin (v.getD (n / 2) 0)
  else .fin ((v.getD (n / 2 - 1) 0 + v.getD (n / 2) 0) / 2)

/-- The sample variance with `ddof = 1`, i.e. the square of what pandas
`Series.std()` returns; `nan` when fewer than two cells are non-missing
(pandas returns `nan` there as well). -/
def sampleVarF (l : List (Option ℚ)) : FVal :=
  let v := somes l
  let n := v.length
  if n ≤ 1 then .nan
  else
    let m := v.sum / n
    .fin ((v.map (fun x => (x - m) ^ 2)).sum / (n - 1 : ℕ))

/-- Modelled from the spec: the population variance (divisor `n`), the square
of the population standard deviation the spec says the Avg generator reports.
The source computes the `ddof = 1` sample variance instead. -/
def popVarF (l : List (Option ℚ)) : FVal :=
  let v := somes l
  let n := v.length
  if n = 0 then .nan
  else
    let m := v.sum / n
    .fin ((v.map (fun x => (x - m) ^ 2)).sum / n)

/-- A cell as an embedded float: a missing cell reads back as `nan`
(pandas `iloc` on a missing entry). -/
def ofOpt : Option ℚ → FVal
  | none => .nan
  | some a => .fin a

/-- `Series.iloc[0]` of a column. -/
def firstVal (vals : List (Option ℚ)) : FVal :=
  match vals with
  | [] => .nan
  | v :: _ => ofOpt v

/-- `Series.iloc[-1]` of a column. -/
def lastVal (vals : List (Option ℚ)) : FVal :=
  match vals.getLast? with
  | none => .nan
  | some v => ofOpt v

/-! ### Python numeric formatting -/

/-- Two-digit zero padding of a fraction part. -/
def padTwo (n : ℕ) : String :=
  if n < 10 then "0" ++ toString n else toString n

/-- Groups a least-significant-first digit list into blocks of three. -/
def chunk3 : List Char → List (List Char)
  | a :: b :: c :: d :: rest => [a, b, c] :: chunk3 (d :: rest)
  | l => [l]

/-- Renders a natural number with thousands separators (the `,` format
option). -/
def groupDigits (n : ℕ) : String :=
  String.intercalate ","
    (((chunk3 (Nat.toDigits 10 n).reverse).map (fun p => (⟨p.reverse⟩ : String))).reverse)

/-- Renders a number of hundredths with thousands separators in the integer
part: `123456 ↦ "1,234.56"`. -/
def hundredthsStr (h : ℕ) : String :=
  groupDigits (h / 100) ++ "." ++ padTwo (h % 100)

/-- Renders a number of hundredths without separators. -/
def hundredthsPlain (h : ℕ) : String :=
  toString (h / 100) ++ "." ++ padTwo (h % 100)

/-- Renders a number of tenths without separators. -/
def tenthsPlain (t : ℕ) : String :=
  toString (t / 10) ++ "." ++ toString (t % 10)

/-- Embeds Python `format(x, ',.2f')` on a finite value: magnitude rounded to
hundredths, thousands separators, sign taken from the value. -/
def fmtComma2 (q : ℚ) : String :=
  (if q < 0 then "-" else "") ++ hundredthsStr (round (100 * |q|)).toNat

/-- Embeds Python `format(x, '.2f')`. -/
def fmt2 (q : ℚ) : String :=
  (if q < 0 then "-" else "") ++ hundredthsPlain (round (100 * |q|)).toNat

/-- Embeds Python `format(x, '+.1f')`. -/
def fmtPlus1 (q : ℚ) : String :=
  (if q < 0 then "-" else "+") ++ tenthsPlain (round (10 * |q|)).toNat

/-- `format(x, ',.2f')` on an embedded float. -/
def fmtComma2F : FVal → String
  | .fin q => fmtComma2 q
  | .inf => "inf"
  | .ninf => "-inf"
  | .nan => "nan"

/-- `format(x, '.2f')` on an embedded float. -/
def fmt2F : FVal → String
  | .fin q => fmt2 q
  | .inf => "inf"
  | .ninf => "-inf"
  | .nan => "nan"

/-- `format(x, '+.1f')` on an embedded float. -/
def fmtPlus1F : FVal → String
  | .fin q => fmtPlus1 q
  | .inf => "+inf"
  | .ninf => "-inf"
  | .nan => "+nan"

/-- Newton iteration for the integer square root, structural on a fuel
argument so that it evaluates by plain unfolding. -/
def isqrtAux : ℕ → ℕ → ℕ → ℕ
  | 0, _, x => x
  | fuel + 1, n, x =>
    let y := (x + n / x) / 2
    if y < x then isqrtAux fuel n y else x

/-- The floor integer square root (Newton method). -/
def isqrtNat (n : ℕ) : ℕ :=
  if n ≤ 1 then n else isqrtAux n n (n / 2 + 1)

/-- `round (scale * sqrt q)` computed exactly on nonnegative rationals
(ties rounded up).  Used to embed the display of a float square root. -/
def sqrtRound (scale : ℕ) (q : ℚ) : ℕ :=
  if q ≤ 0 then 0
  else
    let a := q.num.toNat
    let b := q.den
    let N := scale ^ 2 * a * b
    let n0 := isqrtNat N / b
    if (2 * n0 + 1) ^ 2 * b ^ 2 ≤ 4 * N then n0 + 1 else n0

/-- Renders the square root of a variance with `format(x, ',.2f')`: embeds the
`{std:,.2f}` display where `std` is the float square root of the variance. -/
def stdComma2 : FVal → String
  | .fin v => hundredthsStr (sqrtRound 100 v)
  | _ => "nan"

/-- Renders `std / mean * 100` with `format(x, '.1f')`, where `std` is the
square root of the variance argument: embeds the `{(std/avg*100):.1f}`
display, including the non-finite outcomes of a zero mean. -/
def variationStr : FVal → FVal → String
  | .fin v, .fin m =>
    if m = 0 then (if v = 0 then "nan" else "inf")
    else (if m < 0 then "-" else "") ++ tenthsPlain (sqrtRound 1000 (v / m ^ 2))
  | _, _ => "nan"

/-! ### The data snapshot and engine state -/

/-- The in-memory snapshot loaded by `_load_data`: ordered column names, the
subset classified numeric, the row count, and the cells of each column keyed
by name.  A failed or empty load is the snapshot with `nrows = 0`. -/
structure Snapshot where
  columns : List String
  numericCols : List String
  nrows : ℕ
  table : List (String × List (Option ℚ))

/-- The cells of a named column (`self.data[col]`). -/
def Snapshot.colVals (s : Snapshot) (c : String) : List (Option ℚ) :=
  (((s.table.find? (fun p => p.1 = c)).map Prod.snd).getD [])

/-- Snapshot well-formedness, as guaranteed by the loader: the table is
rectangular and every numeric column is present in the table. -/
def Snapshot.WF (s : Snapshot) : Prop :=
  (∀ p ∈ s.table, p.2.length = s.nrows) ∧
    (∀ c ∈ s.numericCols, ∃ p ∈ s.table, p.1 = c)

instance (s : Snapshot) : Decidable s.WF := by
  unfold Snapshot.WF
  exact instDecidableAnd

/-- The mutable engine state: the snapshot (fixed after load) and the
confidence field. -/
structure AIState where
  snap : Snapshot
  confidence : ℚ

/-- `_set_confidence`: clamps the score into `[0, 1]` and stores it. -/
def setConfidence (st : AIState) (score : ℚ) : AIState :=
  { st with confidence := max 0 (min 1 score) }

/-! ### Column resolver (`_find_relevant_column`) -/

/-- The fixed synonym table of `_find_relevant_column`. -/
def synonymsTable : List (String × List String) :=
  [("revenue", ["revenue", "revenues", "sales", "rev", "income", "earnings"]),
   ("cost", ["cost", "costs", "expense", "expenses", "spending"]),
   ("profit", ["profit", "profits", "earnings", "net", "gain"]),
   ("price", ["price", "prices", "amount", "value", "cost"]),
   ("quantity", ["quantity", "qty", "count", "number", "volume"]),
   ("date", ["date", "time", "when", "day"])]

/-- The question tokens: lower-cased text with `?` and `,` removed, split on
whitespace, keeping only tokens longer than two characters. -/
def questionWords (question : String) : List String :=
  ((splitWS ((lowerStr question).data.filter
      (fun c => !(c = '?' || c = ',')))).map
    (fun l => (⟨l⟩ : String))).filter (fun w => 2 < w.length)

/-- The keyword score of one candidate column: `+100` for a direct substring
match, `+50` per token matching a synonym of the column under the synonym
table, `+10` per token of length above three that substring-matches the
column name in either direction. -/
def scoreFor (question : String) (qwords : List String) (col : String) : ℕ :=
  let colL := lowerStr col
  (if strContains question colL then 100 else 0) +
    synonymsTable.foldl
      (fun acc kv =>
        if colL = kv.1 ∨ colL ∈ kv.2 then
          acc + 50 * qwords.countP (fun w => decide (w ∈ kv.2 ∨ w = kv.1))
        else acc) 0 +
    10 * qwords.countP
      (fun w => decide ((strContains colL w ∨ strContains w colL) ∧ 3 < w.length))

/-- `_find_relevant_column`: best-scoring numeric column (strictly greater
score wins, so earlier columns win ties), then the fallback scan over all
columns, then the first numeric column, else nothing.  The argument is the
already lower-cased, stripped question. -/
def findRelevantColumn (snap : Snapshot) (question : String) : Option String :=
  let qwords := questionWords question
  let best := snap.numericCols.foldl
    (fun (acc : Option String × ℕ) col =>
      let sc := scoreFor question qwords col
      if acc.2 < sc then (some col, sc) else acc) (none, 0)
  let fallback : Option String :=
    if best.2 = 0 then
      snap.columns.find? (fun col =>
        qwords.any (fun w =>
          decide ((strContains (lowerStr col) w ∨ strContains w (lowerStr col)) ∧
            3 < w.length)))
    else none
  match fallback with
  | some c => some c
  | none =>
    match best.1 with
    | some m => some m
    | none => snap.numericCols.head?

/-! ### Intent detectors -/

/-- The ratio trigger words of `_is_ratio_question`. -/
def ratioWords : List String :=
  ["ratio", "percentage", "percent", "margin", "divided", "per", "vs", "versus"]

/-- `_is_ratio_question`: any ratio word occurs in the lower-cased text. -/
def isRatioQuestion (q : String) : Prop :=
  containsAny (lowerStr q) ratioWords

instance (q : String) : Decidable (isRatioQuestion q) :=
  inferInstanceAs (Decidable (containsAny _ _))

/-- `_is_multi_column_question`. -/
def isMultiColumnQuestion (q : String) : Prop :=
  strContains (lowerStr q) " and " ∨ strContains (lowerStr q) " vs " ∨
    strContains (lowerStr q) "compare"

instance (q : String) : Decidable (isMultiColumnQuestion q) :=
  inferInstanceAs (Decidable (_ ∨ _ ∨ _))

/-- `_is_max_question` (the argument is already lower-cased). -/
def isMaxQuestion (q : String) : Prop :=
  containsAny q ["max", "highest", "largest", "biggest", "most", "greatest", "peak"]

/-- `_is_min_question`. -/
def isMinQuestion (q : String) : Prop :=
  containsAny q ["min", "lowest", "smallest", "least", "bottom"]

/-- `_is_sum_question`. -/
def isSumQuestion (q : String) : Prop :=
  containsAny q ["total", "sum", "altogether", "combined", "all together"]

/-- `_is_avg_question`. -/
def isAvgQuestion (q : String) : Prop :=
  containsAny q ["average", "avg", "mean", "typical", "on average"]

/-- `_is_count_question`. -/
def isCountQuestion (q : String) : Prop :=
  containsAny q ["how many", "count", "number of", "total records", "total rows"]

/-- `_is_trend_question`. -/
def isTrendQuestion (q : String) : Prop :=
  containsAny q ["trend", "increasing", "decreasing", "growing", "rising",
    "falling", "change", "pattern"]

/-- `_is_comparison_question`. -/
def isComparisonQuestion (q : String) : Prop :=
  strContains q " vs " ∨ strContains q " compared to " ∨ strContains q " versus "

instance (q : String) : Decidable (isComparisonQuestion q) :=
  inferInstanceAs (Decidable (_ ∨ _ ∨ _))

instance (q : String) : Decidable (isMaxQuestion q) :=
  inferInstanceAs (Decidable (containsAny _ _))

instance (q : String) : Decidable (isMinQuestion q) :=
  inferInstanceAs (Decidable (containsAny _ _))

instance (q : String) : Decidable (isSumQuestion q) :=
  inferInstanceAs (Decidable (containsAny _ _))

instance (q : String) : Decidable (isAvgQuestion q) :=
  inferInstanceAs (Decidable (containsAny _ _))

instance (q : String) : Decidable (isCountQuestion q) :=
  inferInstanceAs (Decidable (containsAny _ _))

instance (q : String) : Decidable (isTrendQuestion q) :=
  inferInstanceAs (Decidable (containsAny _ _))

/-! ### Answer generators -/

/-- The fixed no-data answer of `answer_question`. -/
def noDataMsg : String :=
  "❌ No data available. Please upload a CSV file first."

/-- `_answer_max`. -/
def answerMax (snap : Snapshot) (col : String) : String :=
  if col ∈ snap.numericCols then
    let vals := snap.colVals col
    let maxV := omax vals
    let avgV := omean vals
    "\n📈 **Highest " ++ titleStr col ++ "**\n\n• **Maximum**: " ++
      fmtComma2F maxV ++ "\n• **Average**: " ++ fmtComma2F avgV ++
      "\n• **Distance from average**: " ++ fmtComma2F (fsub maxV avgV) ++
      " (" ++ fmtPlus1F (fmul (fsub (fdiv maxV avgV) (.fin 1)) (.fin 100)) ++
      "%)\n"
  else "❌ Cannot find maximum of non-numeric column '" ++ col ++ "'"

/-- `_answer_min`. -/
def answerMin (snap : Snapshot) (col : String) : String :=
  if col ∈ snap.numericCols then
    let vals := snap.colVals col
    let minV := omin vals
    let avgV := omean vals
    "\n📉 **Lowest " ++ titleStr col ++ "**\n\n• **Minimum**: " ++
      fmtComma2F minV ++ "\n• **Average**: " ++ fmtComma2F avgV ++
      "\n• **Distance from average**: " ++ fmtComma2F (fsub avgV minV) ++
      " (" ++ fmtPlus1F (fmul (fsub (.fin 1) (fdiv minV avgV)) (.fin 100)) ++
      "%)\n"
  else "❌ Cannot find minimum of non-numeric column '" ++ col ++ "'"

/-- The percentage-breakdown value of `_answer_sum`:
`avg / total * 100 if total != 0 else 0` — the one guarded division of the
Sum generator. -/
def sumPctVal (vals : List (Option ℚ)) : FVal :=
  if osum vals ≠ 0 then fmul (fdiv (omean vals) (.fin (osum vals))) (.fin 100)
  else .fin 0

/-- `_answer_sum`. -/
def answerSum (snap : Snapshot) (col : String) : String :=
  if col ∈ snap.numericCols then
    let vals := snap.colVals col
    "\n📊 **Total " ++ titleStr col ++ "**\n\n• **Sum**: " ++
      fmtComma2 (osum vals) ++ "\n• **Records**: " ++ toString snap.nrows ++
      "\n• **Average per record**: " ++ fmtComma2F (omean vals) ++
      "\n• **Percentage breakdown**: Each record averages " ++
      fmt2F (sumPctVal vals) ++ "% of total\n"
  else "❌ Cannot sum non-numeric column '" ++ col ++ "'"

/-- `_answer_avg`.  The pandas default `Series.std()` is the `ddof = 1`
sample standard deviation, so `sampleVarF` is the variance under the
displayed square root. -/
def answerAvg (snap : Snapshot) (col : String) : String :=
  if col ∈ snap.numericCols then
    let vals := snap.colVals col
    "\n📊 **Average " ++ titleStr col ++ "**\n\n• **Mean**: " ++
      fmtComma2F (omean vals) ++ "\n• **Median**: " ++ fmtComma2F (omedian vals) ++
      "\n• **Std Dev**: " ++ stdComma2 (sampleVarF vals) ++
      "\n• **Variation**: ±" ++ variationStr (sampleVarF vals) (omean vals) ++
      "% from mean\n"
  else "❌ Cannot calculate average of non-numeric column '" ++ col ++ "'"

/-- Modelled from the spec: the Avg answer as the specification describes it,
with the population standard deviation in the Std Dev and Variation slots.
Identical to `answerAvg` except that `popVarF` replaces `sampleVarF`; used
only to compare the spec text against the source behaviour. -/
def answerAvgPopClaimed (snap : Snapshot) (col : String) : String :=
  if col ∈ snap.numericCols then
    let vals := snap.colVals col
    "\n📊 **Average " ++ titleStr col ++ "**\n\n• **Mean**: " ++
      fmtComma2F (omean vals) ++ "\n• **Median**: " ++ fmtComma2F (omedian vals) ++
      "\n• **Std Dev**: " ++ stdComma2 (popVarF vals) ++
      "\n• **Variation**: ±" ++ variationStr (popVarF vals) (omean vals) ++
      "% from mean\n"
  else "❌ Cannot calculate average of non-numeric column '" ++ col ++ "'"

/-- `_answer_count`. -/
def answerCount (snap : Snapshot) (col : String) : String :=
  let count := snap.nrows
  let nonNull : ℕ := if col ∈ snap.columns then ocount (snap.colVals col) else count
  "\n📊 **Data Count**\n\n• **Total records**: " ++ toString count ++
    "\n• **Non-null values in " ++ col ++ "**: " ++ toString nonNull ++
    "\n• **Missing values**: " ++ toString ((count : ℤ) - (nonNull : ℤ)) ++ "\n"

/-- The percent-change value of `_answer_trend`:
`(change / first_val * 100) if first_val != 0 else 0`.  Note that a missing
first cell reads as `nan`, and Python `nan != 0` is true, so the division is
taken in that case. -/
def trendPctVal (vals : List (Option ℚ)) : FVal :=
  if firstVal vals ≠ FVal.fin 0 then
    fmul (fdiv (fsub (lastVal vals) (firstVal vals)) (firstVal vals)) (.fin 100)
  else .fin 0

/-- `_answer_trend`. -/
def answerTrend (snap : Snapshot) (col : String) : String :=
  if col ∉ snap.numericCols ∨ snap.nrows < 2 then
    "❌ Cannot analyze trend for column '" ++ col ++ "'"
  else
    let vals := snap.colVals col
    let change := fsub (lastVal vals) (firstVal vals)
    let lbl :=
      if fgt0 change then "📈 **INCREASING**"
      else if flt0 change then "📉 **DECREASING**"
      else "➡️ **STABLE**"
    "\n" ++ lbl ++ "\n\n• **Start**: " ++ fmtComma2F (firstVal vals) ++
      "\n• **End**: " ++ fmtComma2F (lastVal vals) ++
      "\n• **Change**: " ++ fmtComma2F change ++ " (" ++
      fmtPlus1F (trendPctVal vals) ++ "%)\n• **Avg daily change**: " ++
      fmtComma2F (fdiv change (.fin (snap.nrows : ℚ))) ++ "\n"

/-- `_answer_comparison`.  The column argument is ignored by the source too
(the loop variable shadows it); the question argument is the already
lower-cased, stripped text. -/
def answerComparison (snap : Snapshot) (q : String) : String :=
  if snap.numericCols.length < 2 then
    "❌ Need at least 2 numeric columns to compare"
  else
    let matched := snap.numericCols.filter (fun c => decide (strContains (lowerStr q) c))
    let cols := if matched.length < 2 then snap.numericCols.take 2 else matched
    match cols with
    | c0 :: c1 :: _ =>
      cols.foldl
        (fun acc col =>
          acc ++ "**" ++ titleStr col ++ "**:\n  • Total: " ++
            fmtComma2 (osum (snap.colVals col)) ++ "\n  • Average: " ++
            fmtComma2F (omean (snap.colVals col)) ++ "\n  • Max: " ++
            fmtComma2F (omax (snap.colVals col)) ++ "\n\n")
        ("📊 **Comparison: " ++ c0 ++ " vs " ++ c1 ++ "**\n\n")
    | _ => "❌ Need at least 2 numeric columns to compare"

/-- `_answer_general`. -/
def answerGeneral (snap : Snapshot) (col : String) : String :=
  if col ∈ snap.numericCols then
    let vals := snap.colVals col
    "\n📊 **Overview: " ++ titleStr col ++ "**\n\n• **Sum**: " ++
      fmtComma2 (osum vals) ++ "\n• **Average**: " ++ fmtComma2F (omean vals) ++
      "\n• **Maximum**: " ++ fmtComma2F (omax vals) ++
      "\n• **Minimum**: " ++ fmtComma2F (omin vals) ++
      "\n• **Records**: " ++ toString snap.nrows ++ "\n"
  else "📊 Showing data for column: **" ++ titleStr col ++ "**"

/-- The answer of `_answer_ratio_question` for the profit-margin pattern. -/
def profitMarginAnswer (profit revenue : ℚ) : String :=
  let margin := profit / revenue * 100
  "\n💰 **Profit Margin Analysis**\n\n• **Margin**: " ++ fmt2 margin ++
    "%\n• **Total Profit**: $" ++ fmtComma2 profit ++
    "\n• **Total Revenue**: $" ++ fmtComma2 revenue ++
    "\n• **Interpretation**: For every $100 in revenue, $" ++ fmt2 margin ++
    " is profit\n                        "

/-- The answer of `_answer_ratio_question` for the revenue-to-cost pattern. -/
def revenueCostAnswer (revenue cost : ℚ) : String :=
  let ratio := revenue / cost
  "\n📊 **Revenue to Cost Ratio**\n\n• **Ratio**: " ++ fmt2 ratio ++
    ":1\n• **Total Revenue**: $" ++ fmtComma2 revenue ++
    "\n• **Total Cost**: $" ++ fmtComma2 cost ++
    "\n• **Meaning**: Revenue is " ++ fmt2 ratio ++
    "x the cost\n                        "

/-- The fallback answer of `_answer_ratio_question`. -/
def ratioNotAvailableMsg : String :=
  "❌ Data not available for requested ratio"

/-- The guard of the profit-margin branch of `_answer_ratio_question`
(the nested ifs of the source fall through when any part fails). -/
def profitMarginCond (snap : Snapshot) (ql : String) : Prop :=
  (strContains ql "profit margin" ∨ (strContains ql "margin" ∧ strContains ql "profit")) ∧
    ("profit" ∈ snap.numericCols ∧ "revenue" ∈ snap.numericCols) ∧
    osum (snap.colVals "revenue") ≠ 0

instance (snap : Snapshot) (ql : String) : Decidable (profitMarginCond snap ql) :=
  inferInstanceAs (Decidable (_ ∧ _ ∧ _))

/-- The guard of the revenue-to-cost branch of `_answer_ratio_question`. -/
def revenueCostCond (snap : Snapshot) (ql : String) : Prop :=
  (strContains ql "revenue" ∧ strContains ql "cost" ∧
      (strContains ql "ratio" ∨ strContains ql "vs")) ∧
    ("revenue" ∈ snap.numericCols ∧ "cost" ∈ snap.numericCols) ∧
    osum (snap.colVals "cost") ≠ 0

instance (snap : Snapshot) (ql : String) : Decidable (revenueCostCond snap ql) :=
  inferInstanceAs (Decidable (_ ∧ _ ∧ _))

/-- `_answer_ratio_question`. -/
def answerRatioQuestion (snap : Snapshot) (question : String) : String :=
  let ql := lowerStr question
  if profitMarginCond snap ql then
    profitMarginAnswer (osum (snap.colVals "profit")) (osum (snap.colVals "revenue"))
  else if revenueCostCond snap ql then
    revenueCostAnswer (osum (snap.colVals "revenue")) (osum (snap.colVals "cost"))
  else ratioNotAvailableMsg

/-- `_answer_multi_column_question`. -/
def answerMultiColumnQuestion (snap : Snapshot) (question : String) : String :=
  let ql := lowerStr question
  let mentioned := snap.numericCols.filter
    (fun col => decide (strContains ql (lowerStr col) ∨
      strContains ql (underscoreToSpace (lowerStr col))))
  if mentioned.length < 2 then
    "❌ Please mention at least two columns to compare"
  else
    (mentioned.take 3).foldl
      (fun acc col =>
        let vals := snap.colVals col
        acc ++ "**" ++ titleStr col ++ "**\n• Sum: $" ++ fmtComma2 (osum vals) ++
          "\n• Average: $" ++ fmtComma2F (omean vals) ++
          "\n• Min: $" ++ fmtComma2F (omin vals) ++
          "\n• Max: $" ++ fmtComma2F (omax vals) ++ "\n\n")
      "📊 **Comparison Analysis**\n\n"

/-- `_generate_generic_response`. -/
def genericResponse (snap : Snapshot) : String :=
  match snap.numericCols with
  | [] => "❌ No numeric data found in this dataset"
  | c0 :: _ =>
    "\n📊 **Available numeric columns to ask about:**\n\n" ++
      String.intercalate "\n" (snap.numericCols.map (fun col => "• " ++ titleStr col)) ++
      "\n\nAsk something like: \"What's the highest " ++ c0 ++
      "?\" or \"Show me the average " ++ c0 ++ "\"\n"

/-! ### The public operation `answer_question` -/

/-- `answer_question`: the ordered intent dispatch of the source, returning
the answer text together with the successor state (only the confidence field
can change). -/
def answerQuestion (st : AIState) (question : String) : String × AIState :=
  if st.snap.nrows = 0 then (noDataMsg, st)
  else if isRatioQuestion question then
    (answerRatioQuestion st.snap question, setConfidence st (9 / 10))
  else if isMultiColumnQuestion question then
    (answerMultiColumnQuestion st.snap question, setConfidence st (17 / 20))
  else
    let ql := trimStr (lowerStr question)
    match findRelevantColumn st.snap ql with
    | none => (genericResponse st.snap, st)
    | some col =>
      if isMaxQuestion ql then (answerMax st.snap col, st)
      else if isMinQuestion ql then (answerMin st.snap col, st)
      else if isSumQuestion ql then (answerSum st.snap col, st)
      else if isAvgQuestion ql then (answerAvg st.snap col, st)
      else if isCountQuestion ql then (answerCount st.snap col, st)
      else if isTrendQuestion ql then (answerTrend st.snap col, st)
      else if isComparisonQuestion ql then (answerComparison st.snap ql, st)
      else (answerGeneral st.snap col, st)

/-- `answerQuestion` with the Comparison branch removed (the final
else-branch absorbs it).  Used to state that the Comparison branch is
unreachable: the dispatch is proved equal to this variant for every state
and question. -/
def answerQuestionNoComparison (st : AIState) (question : String) : String × AIState :=
  if st.snap.nrows = 0 then (noDataMsg, st)
  else if isRatioQuestion question then
    (answerRatioQuestion st.snap question, setConfidence st (9 / 10))
  else if isMultiColumnQuestion question then
    (answerMultiColumnQuestion st.snap question, setConfidence st (17 / 20))
  else
    let ql := trimStr (lowerStr question)
    match findRelevantColumn st.snap ql with
    | none => (genericResponse st.snap, st)
    | some col =>
      if isMaxQuestion ql then (answerMax st.snap col, st)
      else if isMinQuestion ql then (answerMin st.snap col, st)
      else if isSumQuestion ql then (answerSum st.snap col, st)
      else if isAvgQuestion ql then (answerAvg st.snap col, st)
      else if isCountQuestion ql then (answerCount st.snap col, st)
      else if isTrendQuestion ql then (answerTrend st.snap col, st)
      else (answerGeneral st.snap col, st)

/-! ### Concrete snapshots used by witnesses and counterexamples -/

/-- The worked example of the specification: columns
`(date, revenue, cost, profit)` with rows `(100, 40, 60)` and
`(200, 80, 120)` (date cells modelled by an arbitrary present rational,
since the engine never reads their value). -/
def exSnap : Snapshot :=
  { columns := ["date", "revenue", "cost", "profit"],
    numericCols := ["revenue", "cost", "profit"],
    nrows := 2,
    table := [("date", [some 0, some 0]), ("revenue", [some 100, some 200]),
              ("cost", [some 40, some 80]), ("profit", [some 60, some 120])] }

/-- The engine state over `exSnap` with the initial confidence `1.0`. -/
def exState : AIState := ⟨exSnap, 1⟩

/-- An empty snapshot (failed or empty load). -/
def emptySnap : Snapshot := ⟨[], [], 0, []⟩

/-- A two-row single-column snapshot whose column mean is zero. -/
def snapZeroMean : Snapshot :=
  { columns := ["x"], numericCols := ["x"], nrows := 2,
    table := [("x", [some 1, some (-1)])] }

/-- A three-row single-column snapshot where the sample and population
standard deviations differ (values 0, 2, 4). -/
def snapStd : Snapshot :=
  { columns := ["x"], numericCols := ["x"], nrows := 3,
    table := [("x", [some 0, some 2, some 4])] }

/-- A single-row snapshot. -/
def snapOneRow : Snapshot :=
  { columns := ["x"], numericCols := ["x"], nrows := 1,
    table := [("x", [some 5])] }

/-! ### Helper lemmas -/

/-- Stripping yields a contiguous part of the original character list. -/
lemma trimChars_contained (l : List Char) : trimChars l <:+: l := by
  unfold trimChars
  have h1 : l.dropWhile Char.isWhitespace <:+ l := List.dropWhile_suffix _
  have h2 : (l.dropWhile Char.isWhitespace).reverse.dropWhile Char.isWhitespace <:+
      (l.dropWhile Char.isWhitespace).reverse := List.dropWhile_suffix _
  have h3 := List.reverse_prefix.mpr h2
  rw [List.reverse_reverse] at h3
  exact h3.isInfix.trans h1.isInfix

/-- A substring of the stripped text is a substring of the text. -/
lemma trim_strContains {s w : String} (h : strContains (trimStr s) w) :
    strContains s w :=
  List.IsInfix.trans h (trimChars_contained s.data)

/-- Substring containment is transitive through an intermediate string. -/
lemma strContains_trans {s m w : String} (hm : strContains s m)
    (hw : strContains m w) : strContains s w :=
  List.IsInfix.trans hw hm

/-- Each comparison trigger phrase of `_is_comparison_question` contains a
trigger substring of an earlier detector, so a comparison question is always
claimed first by the ratio or multi-column detector. -/
lemma comparison_subsumed {q : String}
    (h : isComparisonQuestion (trimStr (lowerStr q))) :
    isRatioQuestion q ∨ isMultiColumnQuestion q := by
  rcases h with h | h | h
  · exact Or.inl ⟨"vs", by decide,
      strContains_trans (trim_strContains h) (by decide)⟩
  · exact Or.inr (Or.inr (Or.inr
      (strContains_trans (trim_strContains h) (by decide))))
  · exact Or.inl ⟨"versus", by decide,
      strContains_trans (trim_strContains h) (by decide)⟩

/-- A column with a nonzero sum forces a nonzero row count in a well-formed
snapshot. -/
lemma nrows_ne_zero_of_osum (snap : Snapshot) (hwf : snap.WF) (c : String)
    (h : osum (snap.colVals c) ≠ 0) : snap.nrows ≠ 0 := by
  intro h0
  apply h
  rcases hfind : snap.table.find? (fun p => p.1 = c) with _ | p
  · simp [Snapshot.colVals, hfind, osum, somes]
  · have hmem := List.mem_of_find?_eq_some hfind
    have hlen := hwf.1 p hmem
    rw [h0, List.length_eq_zero] at hlen
    simp [Snapshot.colVals, hfind, hlen, osum, somes]

/-- In a well-formed snapshot every numeric column has `nrows` cells. -/
lemma colVals_length (snap : Snapshot) (hwf : snap.WF) (c : String)
    (hc : c ∈ snap.numericCols) : (snap.colVals c).length = snap.nrows := by
  obtain ⟨p, hp, hpc⟩ := hwf.2 c hc
  rcases hfind : snap.table.find? (fun p => p.1 = c) with _ | q
  · rw [List.find?_eq_none] at hfind
    exact absurd (by simp [hpc]) (hfind p hp)
  · have hmem := List.mem_of_find?_eq_some hfind
    have hlen := hwf.1 q hmem
    simp [Snapshot.colVals, hfind, hlen]

/-- On a fully populated column the non-missing count is the length. -/
lemma ocount_of_full (l : List (Option ℚ)) (h : ∀ v ∈ l, v ≠ none) :
    ocount l = l.length := by
  induction l with
  | nil => rfl
  | cons a t ih =>
    cases a with
    | none => exact absurd rfl (h none (by simp))
    | some x =>
      have := ih (fun v hv => h v (List.mem_cons_of_mem _ hv))
      simp only [ocount, somes, List.filterMap_cons] at this ⊢
      simp [this]

/-- A nonzero column sum forces at least one non-missing cell. -/
lemma ocount_ne_zero_of_osum {l : List (Option ℚ)} (h : osum l ≠ 0) :
    ocount l ≠ 0 := by
  intro h0
  apply h
  rw [ocount, List.length_eq_zero] at h0
  rw [osum, h0]
  rfl

/-- The answer text depends on the state only through the snapshot: the
confidence field never feeds back into an answer. -/
lemma answerQuestion_fst_congr (st₁ st₂ : AIState) (q : String)
    (h : st₁.snap = st₂.snap) :
    (answerQuestion st₁ q).1 = (answerQuestion st₂ q).1 := by
  obtain ⟨s₁, c₁⟩ := st₁
  obtain ⟨s₂, c₂⟩ := st₂
  simp only at h
  subst h
  unfold answerQuestion
  by_cases h0 : s₁.nrows = 0
  · simp [h0]
  by_cases hr : isRatioQuestion q
  · simp [h0, hr]
  by_cases hm : isMultiColumnQuestion q
  · simp [h0, hr, hm]
  simp only [h0, hr, hm, if_false, if_neg, ite_false]
  rcases hfc : findRelevantColumn s₁ (trimStr (lowerStr q)) with _ | col <;>
    simp [hfc, h0, hr, hm] <;> split_ifs <;> rfl

/-- The snapshot is unchanged by answering a question; only the confidence
field can move. -/
lemma answerQuestion_snd_snap (st : AIState) (q : String) :
    ((answerQuestion st q).2).snap = st.snap := by
  unfold answerQuestion
  by_cases h0 : st.snap.nrows = 0
  · simp [h0]
  by_cases hr : isRatioQuestion q
  · simp [h0, hr, setConfidence]
  by_cases hm : isMultiColumnQuestion q
  · simp [h0, hr, hm, setConfidence]
  simp only [h0, hr, hm, if_false, if_neg, ite_false]
  rcases hfc : findRelevantColumn st.snap (trimStr (lowerStr q)) with _ | col <;>
    simp [hfc, h0, hr, hm] <;> split_ifs <;> rfl

/-! ### Claim theorems -/

/-- C2: on an empty snapshot (zero rows, or a failed load) `answer_question`
returns the one fixed no-data message, whatever the question text. -/
theorem c2_no_data (st : AIState) (q : String) (h : st.snap.nrows = 0) :
    (answerQuestion st q).1 =
      "❌ No data available. Please upload a CSV file first." := by
  unfold answerQuestion
  rw [if_pos h]
  rfl

theorem c2_no_data_witness :
    (answerQuestion ⟨emptySnap, 1⟩ "what is the profit margin?").1 =
      "❌ No data available. Please upload a CSV file first." :=
  c2_no_data ⟨emptySnap, 1⟩ "what is the profit margin?" rfl

/-- C3: on a non-empty snapshot, any question containing a ratio trigger word
(ratio, percentage, percent, margin, divided, per, vs, versus —
case-insensitive substring) is dispatched to the Ratio generator before any
other intent is considered, and the confidence score is set to 0.9. -/
theorem c3_ratio_dispatch (st : AIState) (q : String) (h0 : st.snap.nrows ≠ 0)
    (hr : isRatioQuestion q) :
    answerQuestion st q =
      (answerRatioQuestion st.snap q, setConfidence st (9 / 10)) ∧
    (setConfidence st (9 / 10)).confidence = 9 / 10 := by
  refine ⟨?_, ?_⟩
  · unfold answerQuestion
    rw [if_neg h0, if_pos hr]
  · show max 0 (min 1 (9 / 10 : ℚ)) = 9 / 10
    norm_num

theorem c3_ratio_dispatch_witness :
    answerQuestion exState "revenue per unit" =
      (answerRatioQuestion exState.snap "revenue per unit",
        setConfidence exState (9 / 10)) ∧
    (setConfidence exState (9 / 10)).confidence = 9 / 10 :=
  c3_ratio_dispatch exState "revenue per unit" (by decide) (by decide)

/-- C9: answering the same question twice against an unchanged snapshot
returns the identical text, and the only state reachable from answering is
one with the same snapshot (the confidence side effect does not feed back
into the answer). -/
theorem c9_idempotent (st : AIState) (q : String) :
    (answerQuestion ((answerQuestion st q).2) q).1 = (answerQuestion st q).1 ∧
    ((answerQuestion st q).2).snap = st.snap :=
  ⟨answerQuestion_fst_congr _ _ q (answerQuestion_snd_snap st q),
    answerQuestion_snd_snap st q⟩

/-- C10: the Comparison branch of the dispatch is unreachable — every trigger
phrase of `_is_comparison_question` contains a substring claimed earlier by
the ratio or multi-column detector, so `answer_question` is the same function
with the Comparison branch deleted. -/
theorem c10_comparison_unreachable (st : AIState) (q : String) :
    answerQuestion st q = answerQuestionNoComparison st q := by
  unfold answerQuestion answerQuestionNoComparison
  by_cases h0 : st.snap.nrows = 0
  · simp [h0]
  by_cases hr : isRatioQuestion q
  · simp [h0, hr]
  by_cases hm : isMultiColumnQuestion q
  · simp [h0, hr, hm]
  simp only [h0, hr, hm, if_false, ite_false, if_neg]
  rcases hfc : findRelevantColumn st.snap (trimStr (lowerStr q)) with _ | col
  · simp [hfc]
  simp only [hfc]
  split_ifs with hmax hmin hsum havg hcount htrend hcomp
  · rfl
  · rfl
  · rfl
  · rfl
  · rfl
  · rfl
  · rcases comparison_subsumed hcomp with hx | hx
    · exact absurd hx hr
    · exact absurd hx hm
  · rfl

/-- C1: a question containing a profit-margin phrase (the literal phrase
"profit margin", or "margin" together with "profit"), answered against a
well-formed snapshot with numeric columns literally named profit and revenue
whose revenue sum is nonzero, yields the profit-margin answer whose reported
margin is `100 * sum(profit) / sum(revenue)` rendered to two decimal
places. -/
theorem c1_profit_margin (st : AIState) (q : String) (hwf : st.snap.WF)
    (hphrase : strContains (lowerStr q) "profit margin" ∨
      (strContains (lowerStr q) "margin" ∧ strContains (lowerStr q) "profit"))
    (hp : "profit" ∈ st.snap.numericCols)
    (hrv : "revenue" ∈ st.snap.numericCols)
    (hrev : osum (st.snap.colVals "revenue") ≠ 0) :
    (answerQuestion st q).1 =
      "\n💰 **Profit Margin Analysis**\n\n• **Margin**: " ++
        fmt2 (100 * osum (st.snap.colVals "profit") / osum (st.snap.colVals "revenue")) ++
        "%\n• **Total Profit**: $" ++ fmtComma2 (osum (st.snap.colVals "profit")) ++
        "\n• **Total Revenue**: $" ++ fmtComma2 (osum (st.snap.colVals "revenue")) ++
        "\n• **Interpretation**: For every $100 in revenue, $" ++
        fmt2 (100 * osum (st.snap.colVals "profit") / osum (st.snap.colVals "revenue")) ++
        " is profit\n                        " := by
  have hmargin : strContains (lowerStr q) "margin" := by
    rcases hphrase with h | h
    · exact strContains_trans h (by decide)
    · exact h.1
  have hr : isRatioQuestion q := ⟨"margin", by decide, hmargin⟩
  have h0 : st.snap.nrows ≠ 0 := nrows_ne_zero_of_osum st.snap hwf "revenue" hrev
  have hstep : (answerQuestion st q).1 = answerRatioQuestion st.snap q := by
    unfold answerQuestion
    rw [if_neg h0, if_pos hr]
  rw [hstep]
  unfold answerRatioQuestion
  dsimp only
  rw [if_pos (show profitMarginCond st.snap (lowerStr q) from ⟨hphrase, ⟨hp, hrv⟩, hrev⟩)]
  unfold profitMarginAnswer
  dsimp only
  rw [show osum (st.snap.colVals "profit") / osum (st.snap.colVals "revenue") * 100 =
      100 * osum (st.snap.colVals "profit") / osum (st.snap.colVals "revenue") from by ring]

theorem c1_profit_margin_witness :
    (answerQuestion exState "profit margin").1 =
      "\n💰 **Profit Margin Analysis**\n\n• **Margin**: " ++
        fmt2 (100 * osum (exState.snap.colVals "profit") / osum (exState.snap.colVals "revenue")) ++
        "%\n• **Total Profit**: $" ++ fmtComma2 (osum (exState.snap.colVals "profit")) ++
        "\n• **Total Revenue**: $" ++ fmtComma2 (osum (exState.snap.colVals "revenue")) ++
        "\n• **Interpretation**: For every $100 in revenue, $" ++
        fmt2 (100 * osum (exState.snap.colVals "profit") / osum (exState.snap.colVals "revenue")) ++
        " is profit\n                        " :=
  c1_profit_margin exState "profit margin" (by decide) (Or.inl (by decide))
    (by decide) (by decide) (by with_unfolding_all decide)

/-- C6: resolving the question "What is the total revenue?" (already
lower-cased and stripped by the dispatcher) against the example snapshot with
columns date, revenue, cost, profit selects the revenue column: its direct
substring match contributes 100 and its total score strictly beats the score
of every other numeric column. -/
theorem c6_revenue_resolution :
    findRelevantColumn exSnap "what is the total revenue?" = some "revenue" ∧
    100 ≤ scoreFor "what is the total revenue?"
        (questionWords "what is the total revenue?") "revenue" ∧
    scoreFor "what is the total revenue?"
        (questionWords "what is the total revenue?") "cost" <
      scoreFor "what is the total revenue?"
        (questionWords "what is the total revenue?") "revenue" ∧
    scoreFor "what is the total revenue?"
        (questionWords "what is the total revenue?") "profit" <
      scoreFor "what is the total revenue?"
        (questionWords "what is the total revenue?") "revenue" :=
  ⟨by decide, by decide, by decide, by decide⟩

/-- C7: the Trend generator answers with the explicit cannot-analyze message
(and no exception — it is a total function) whenever the snapshot has fewer
than two rows or the resolved column is not numeric; in particular a question
classified as Trend intent over a single-row snapshot produces exactly that
message through the full dispatch. -/
theorem c7_trend_insufficient :
    (∀ (snap : Snapshot) (col : String), col ∉ snap.numericCols ∨ snap.nrows < 2 →
      answerTrend snap col = "❌ Cannot analyze trend for column '" ++ col ++ "'") ∧
    (∀ (st : AIState) (q : String) (col : String), st.snap.nrows = 1 →
      ¬isRatioQuestion q → ¬isMultiColumnQuestion q →
      findRelevantColumn st.snap (trimStr (lowerStr q)) = some col →
      ¬isMaxQuestion (trimStr (lowerStr q)) → ¬isMinQuestion (trimStr (lowerStr q)) →
      ¬isSumQuestion (trimStr (lowerStr q)) → ¬isAvgQuestion (trimStr (lowerStr q)) →
      ¬isCountQuestion (trimStr (lowerStr q)) → isTrendQuestion (trimStr (lowerStr q)) →
      (answerQuestion st q).1 = "❌ Cannot analyze trend for column '" ++ col ++ "'") := by
  constructor
  · intro snap col h
    unfold answerTrend
    rw [if_pos h]
  · intro st q col h1 hr hm hfc hmax hmin hsum havg hcount htrend
    unfold answerQuestion
    rw [if_neg (by rw [h1]; exact one_ne_zero), if_neg hr, if_neg hm]
    simp only [hfc]
    rw [if_neg hmax, if_neg hmin, if_neg hsum, if_neg havg, if_neg hcount, if_pos htrend]
    show answerTrend st.snap col = _
    unfold answerTrend
    rw [if_pos (Or.inr (by omega))]

theorem c7_trend_insufficient_witness :
    (answerQuestion ⟨snapOneRow, 1⟩ "trend x").1 =
      "❌ Cannot analyze trend for column '" ++ "x" ++ "'" :=
  c7_trend_insufficient.2 ⟨snapOneRow, 1⟩ "trend x" "x" rfl (by decide) (by decide)
    (by decide) (by decide) (by decide) (by decide) (by decide) (by decide) (by decide)

/-- C4 counterexample: the Max generator divides by the column mean without a
zero guard.  On the column `[1, -1]` (mean 0) the question "highest x" flows
through the full dispatch and the answer embeds the non-finite division
result `+inf` instead of 0 or a not-available message. -/
theorem c4_div_by_zero_counterexample :
    (answerQuestion ⟨snapZeroMean, 1⟩ "highest x").1 =
      "\n📈 **Highest X**\n\n• **Maximum**: 1.00\n• **Average**: 0.00\n• **Distance from average**: 1.00 (+inf%)\n" ∧
    fmul (fsub (fdiv (omax (snapZeroMean.colVals "x"))
        (omean (snapZeroMean.colVals "x"))) (.fin 1)) (.fin 100) = FVal.inf :=
  ⟨by with_unfolding_all rfl, by with_unfolding_all rfl⟩

/-- C4 amended: the divisions of the Sum, Trend and Ratio generators are
guarded — the Sum percentage value is always finite, the Trend percent change
is finite whenever the first and last cells of the column are present, and
the ratio generator falls back to the not-available message when both
denominator sums are zero.  (The Max, Min and Avg generators divide by the
column mean unguarded, as the counterexample shows; no generator raises,
since every generator is a total function into answer text.) -/
theorem c4_guarded_divisions :
    (∀ vals : List (Option ℚ), ∃ p : ℚ, sumPctVal vals = FVal.fin p) ∧
    (∀ (vals : List (Option ℚ)) (a b : ℚ), vals.head? = some (some a) →
      vals.getLast? = some (some b) → ∃ p : ℚ, trendPctVal vals = FVal.fin p) ∧
    (∀ (snap : Snapshot) (q : String), osum (snap.colVals "revenue") = 0 →
      osum (snap.colVals "cost") = 0 →
      answerRatioQuestion snap q = ratioNotAvailableMsg) := by
  refine ⟨?_, ?_, ?_⟩
  · intro vals
    unfold sumPctVal
    split_ifs with h
    · have hc : ocount vals ≠ 0 := ocount_ne_zero_of_osum h
      unfold omean
      rw [if_neg hc]
      simp only [fdiv]
      rw [if_neg h]
      exact ⟨_, rfl⟩
    · exact ⟨0, rfl⟩
  · intro vals a b h1 h2
    have hf : firstVal vals = .fin a := by
      cases vals with
      | nil => simp at h1
      | cons v t =>
        obtain rfl : v = some a := by injection h1
        rfl
    have hl : lastVal vals = .fin b := by
      simp only [lastVal, h2]
      rfl
    unfold trendPctVal
    rw [hf, hl]
    by_cases ha : a = 0
    · subst ha
      rw [if_neg (by simp)]
      exact ⟨0, rfl⟩
    · rw [if_pos (by simp [ha])]
      simp only [fsub, fdiv]
      rw [if_neg ha]
      exact ⟨_, rfl⟩
  · intro snap q h1 h2
    have hA : ¬profitMarginCond snap (lowerStr q) := fun hc => hc.2.2 h1
    have hB : ¬revenueCostCond snap (lowerStr q) := fun hc => hc.2.2 h2
    unfold answerRatioQuestion
    dsimp only
    rw [if_neg hA, if_neg hB]

theorem c4_guarded_divisions_witness :
    (∃ p : ℚ, sumPctVal [some 5, some 3] = FVal.fin p) ∧
    (∃ p : ℚ, trendPctVal [some 5, some 3] = FVal.fin p) ∧
    answerRatioQuestion emptySnap "profit margin ratio" = ratioNotAvailableMsg :=
  ⟨c4_guarded_divisions.1 [some 5, some 3],
   c4_guarded_divisions.2.1 [some 5, some 3] 5 3 rfl rfl,
   c4_guarded_divisions.2.2 emptySnap "profit margin ratio" rfl rfl⟩

/-- C5 counterexample: on the column `[0, 2, 4]` the Avg generator renders
the sample standard deviation (2.00), not the population standard deviation
(1.63) that the specification describes, so the answer differs from the
spec-modelled population-based answer. -/
theorem c5_std_counterexample :
    answerAvg snapStd "x" ≠ answerAvgPopClaimed snapStd "x" := by
  with_unfolding_all decide

/-- C5 amended: for a numeric resolved column the Avg generator reports the
mean, the median, the `ddof = 1` sample standard deviation (pandas default,
not the population standard deviation), and that sample standard deviation as
a percentage of the mean. -/
theorem c5_avg_reports (snap : Snapshot) (col : String)
    (h : col ∈ snap.numericCols) :
    answerAvg snap col =
      "\n📊 **Average " ++ titleStr col ++ "**\n\n• **Mean**: " ++
        fmtComma2F (omean (snap.colVals col)) ++ "\n• **Median**: " ++
        fmtComma2F (omedian (snap.colVals col)) ++ "\n• **Std Dev**: " ++
        stdComma2 (sampleVarF (snap.colVals col)) ++ "\n• **Variation**: ±" ++
        variationStr (sampleVarF (snap.colVals col)) (omean (snap.colVals col)) ++
        "% from mean\n" := by
  unfold answerAvg
  rw [if_pos h]

theorem c5_avg_reports_witness :
    answerAvg snapStd "x" =
      "\n📊 **Average " ++ titleStr "x" ++ "**\n\n• **Mean**: " ++
        fmtComma2F (omean (snapStd.colVals "x")) ++ "\n• **Median**: " ++
        fmtComma2F (omedian (snapStd.colVals "x")) ++ "\n• **Std Dev**: " ++
        stdComma2 (sampleVarF (snapStd.colVals "x")) ++ "\n• **Variation**: ±" ++
        variationStr (sampleVarF (snapStd.colVals "x")) (omean (snapStd.colVals "x")) ++
        "% from mean\n" :=
  c5_avg_reports snapStd "x" (by decide)

/-- C8: on a numeric column with no missing cells of a non-empty well-formed
snapshot, the mean the Sum generator reports is exactly its reported sum
divided by its reported record count, and that record count is the total row
count of the snapshot. -/
theorem c8_sum_mean_relation (snap : Snapshot) (col : String) (hwf : snap.WF)
    (hcol : col ∈ snap.numericCols) (hnz : snap.nrows ≠ 0)
    (hfull : ∀ v ∈ snap.colVals col, v ≠ none) :
    omean (snap.colVals col) =
      FVal.fin (osum (snap.colVals col) / (snap.nrows : ℚ)) ∧
    answerSum snap col =
      "\n📊 **Total " ++ titleStr col ++ "**\n\n• **Sum**: " ++
        fmtComma2 (osum (snap.colVals col)) ++ "\n• **Records**: " ++
        toString snap.nrows ++ "\n• **Average per record**: " ++
        fmtComma2 (osum (snap.colVals col) / (snap.nrows : ℚ)) ++
        "\n• **Percentage breakdown**: Each record averages " ++
        fmt2F (sumPctVal (snap.colVals col)) ++ "% of total\n" := by
  have hlen := colVals_length snap hwf col hcol
  have hoc : ocount (snap.colVals col) = snap.nrows := by
    rw [ocount_of_full _ hfull, hlen]
  have h1 : omean (snap.colVals col) =
      FVal.fin (osum (snap.colVals col) / (snap.nrows : ℚ)) := by
    unfold omean
    rw [if_neg (by rw [hoc]; exact hnz), hoc]
  refine ⟨h1, ?_⟩
  unfold answerSum
  rw [if_pos hcol]
  dsimp only
  rw [h1]
  rfl

theorem c8_sum_mean_relation_witness :
    omean (exSnap.colVals "revenue") =
      FVal.fin (osum (exSnap.colVals "revenue") / (exSnap.nrows : ℚ)) ∧
    answerSum exSnap "revenue" =
      "\n📊 **Total " ++ titleStr "revenue" ++ "**\n\n• **Sum**: " ++
        fmtComma2 (osum (exSnap.colVals "revenue")) ++ "\n• **Records**: " ++
        toString exSnap.nrows ++ "\n• **Average per record**: " ++
        fmtComma2 (osum (exSnap.colVals "revenue") / (exSnap.nrows : ℚ)) ++
        "\n• **Percentage breakdown**: Each record averages " ++
        fmt2F (sumPctVal (exSnap.colVals "revenue")) ++ "% of total\n" :=
  c8_sum_mean_relation exSnap "revenue" (by decide) (by decide) (by decide)
    (by decide)
